import Mathlib

/-!
Shallow embedding of the interactive crop-selection engine of
`src/js/image-tools.js` (object `ImageCropTool`), the CropSelector
component of the specification.

Coordinates are modelled as exact rationals (`ℚ`).  The embedded state
carries the fields the gesture logic reads and writes:
`cropStartX/Y`, `cropEndX/Y` (the selection rectangle), `dragMode`,
`dragOffsetX/Y`, `isDragging`, and the canvas dimensions
(`cropCanvas.width/height`), which play the role of Bounds.

The gesture operations are transliterated from the source:
* `handleImageSelect` (lines 163-173): sets the bounds from the loaded
  image and initializes the selection to the centered 50% region;
* `startDrag` (lines 314-343): hit-test dispatch on pointer-down;
* `updateDrag` (lines 346-395): clamp the point to bounds, then the
  mode-specific update;
* `onMouseUp` (lines 278-280): clears `isDragging` only.
-/

namespace Fileverse

/-- The drag-mode tag.  In the source it is the string field `dragMode`
(one of topLeft, topRight, bottomLeft, bottomRight, move, new);
`none` models the initial undefined value, on which the switch in
`updateDrag` matches no case. -/
inductive DragMode where
  | none
  | topLeft
  | topRight
  | bottomLeft
  | bottomRight
  | move
  | new
deriving DecidableEq

/-- The mutable state of `ImageCropTool` relevant to the gesture logic.
`boundsW`/`boundsH` model `cropCanvas.width`/`cropCanvas.height`. -/
structure CropState where
  boundsW : ℚ
  boundsH : ℚ
  cropStartX : ℚ
  cropStartY : ℚ
  cropEndX : ℚ
  cropEndY : ℚ
  dragMode : DragMode
  dragOffsetX : ℚ
  dragOffsetY : ℚ
  isDragging : Bool
deriving DecidableEq

/-- A crop rectangle given by its two corner points, as read back by the
rendering/export code (`updateCropPreview`, `performCrop`). -/
structure Rect where
  x0 : ℚ
  y0 : ℚ
  x1 : ℚ
  y1 : ℚ
deriving DecidableEq

/-- The constant `handleSize = 10` of `startDrag` (line 315): the
per-axis corner handle tolerance. -/
def handleSize : ℚ := 10

/-- The constant `minSize = 20` of `updateDrag` (line 347): the minimum
crop size enforced by the resize formulas. -/
def minSize : ℚ := 20

/-- Hit predicate of the top-left handle:
`Math.abs(x - cropStartX) < handleSize && Math.abs(y - cropStartY) < handleSize`. -/
abbrev nearTopLeft (s : CropState) (x y : ℚ) : Prop :=
  |x - s.cropStartX| < handleSize ∧ |y - s.cropStartY| < handleSize

/-- Hit predicate of the top-right handle. -/
abbrev nearTopRight (s : CropState) (x y : ℚ) : Prop :=
  |x - s.cropEndX| < handleSize ∧ |y - s.cropStartY| < handleSize

/-- Hit predicate of the bottom-left handle. -/
abbrev nearBottomLeft (s : CropState) (x y : ℚ) : Prop :=
  |x - s.cropStartX| < handleSize ∧ |y - s.cropEndY| < handleSize

/-- Hit predicate of the bottom-right handle. -/
abbrev nearBottomRight (s : CropState) (x y : ℚ) : Prop :=
  |x - s.cropEndX| < handleSize ∧ |y - s.cropEndY| < handleSize

/-- Strict-interior predicate used by `startDrag`:
`x > cropStartX && x < cropEndX && y > cropStartY && y < cropEndY`. -/
abbrev insideRect (s : CropState) (x y : ℚ) : Prop :=
  s.cropStartX < x ∧ x < s.cropEndX ∧ s.cropStartY < y ∧ y < s.cropEndY

/-- The operation `ImageCropTool.startDrag(x, y)` (lines 314-343): resolve the drag
mode by first-match-wins hit-testing; a miss starts a new selection and
collapses the rectangle to the (unclamped) pointer position. -/
def startDrag (x y : ℚ) (s : CropState) : CropState :=
  if nearTopLeft s x y then
    { s with dragMode := DragMode.topLeft }
  else if nearTopRight s x y then
    { s with dragMode := DragMode.topRight }
  else if nearBottomLeft s x y then
    { s with dragMode := DragMode.bottomLeft }
  else if nearBottomRight s x y then
    { s with dragMode := DragMode.bottomRight }
  else if insideRect s x y then
    { s with dragMode := DragMode.move
             dragOffsetX := x - s.cropStartX
             dragOffsetY := y - s.cropStartY }
  else
    { s with dragMode := DragMode.new
             cropStartX := x
             cropStartY := y
             cropEndX := x
             cropEndY := y }

/-- The operation `ImageCropTool.updateDrag(x, y)` (lines 346-395): clamp the pointer
into the canvas bounds, then update the rectangle according to the
active drag mode. -/
def updateDrag (x y : ℚ) (s : CropState) : CropState :=
  let xc := max 0 (min s.boundsW x)
  let yc := max 0 (min s.boundsH y)
  match s.dragMode with
  | DragMode.topLeft =>
      { s with cropStartX := min (s.cropEndX - minSize) xc
               cropStartY := min (s.cropEndY - minSize) yc }
  | DragMode.topRight =>
      { s with cropEndX := max (s.cropStartX + minSize) xc
               cropStartY := min (s.cropEndY - minSize) yc }
  | DragMode.bottomLeft =>
      { s with cropStartX := min (s.cropEndX - minSize) xc
               cropEndY := max (s.cropStartY + minSize) yc }
  | DragMode.bottomRight =>
      { s with cropEndX := max (s.cropStartX + minSize) xc
               cropEndY := max (s.cropStartY + minSize) yc }
  | DragMode.move =>
      let width := s.cropEndX - s.cropStartX
      let height := s.cropEndY - s.cropStartY
      let newStartX := xc - s.dragOffsetX
      let newStartY := yc - s.dragOffsetY
      let newStartX := if newStartX < 0 then 0 else newStartX
      let newStartY := if newStartY < 0 then 0 else newStartY
      let newStartX := if newStartX + width > s.boundsW then s.boundsW - width else newStartX
      let newStartY := if newStartY + height > s.boundsH then s.boundsH - height else newStartY
      { s with cropStartX := newStartX
               cropStartY := newStartY
               cropEndX := newStartX + width
               cropEndY := newStartY + height }
  | DragMode.new =>
      { s with cropEndX := xc
               cropEndY := yc }
  | DragMode.none => s

/-- The handler `ImageCropTool.onMouseUp` (lines 278-280): ends the gesture by
clearing `isDragging`; it touches no other field. -/
def onMouseUp (s : CropState) : CropState :=
  { s with isDragging := false }

/-- The rectangle-initializing part of `ImageCropTool.handleImageSelect`
(lines 163-173): the canvas is resized to the image and the crop area is
initialized to the centered 50% region. -/
def handleImageSelect (w h : ℚ) (s : CropState) : CropState :=
  { s with boundsW := w
           boundsH := h
           cropStartX := w * 0.25
           cropStartY := h * 0.25
           cropEndX := w * 0.75
           cropEndY := h * 0.75 }

/-- The state right after loading an image of dimensions `w × h` into a
fresh `ImageCropTool` (object-literal initial fields, lines 110-114,
followed by `handleImageSelect`). -/
def initState (w h : ℚ) : CropState :=
  handleImageSelect w h
    { boundsW := 0, boundsH := 0
      cropStartX := 0, cropStartY := 0, cropEndX := 0, cropEndY := 0
      dragMode := DragMode.none
      dragOffsetX := 0, dragOffsetY := 0
      isDragging := false }

/-- The current crop rectangle, as the rendering/export code reads it
from the four fields. -/
def currentRectangle (s : CropState) : Rect :=
  { x0 := s.cropStartX, y0 := s.cropStartY, x1 := s.cropEndX, y1 := s.cropEndY }

/-- The selection dimensions `(cropEndX − cropStartX, cropEndY − cropStartY)`
computed throughout the source (e.g. lines 207-208). -/
def dimensions (s : CropState) : ℚ × ℚ :=
  (s.cropEndX - s.cropStartX, s.cropEndY - s.cropStartY)

/-- One pointer event, already converted to surface-local coordinates by
the mouse/touch adapters (lines 259-311). -/
inductive Event where
  | mouseDown (x y : ℚ)
  | mouseMove (x y : ℚ)
  | mouseUp
deriving DecidableEq

/-- The event dispatch of `onMouseDown`/`onMouseMove`/`onMouseUp`:
pointer-down sets `isDragging` and runs `startDrag`; pointer-move runs
`updateDrag` only while `isDragging`; pointer-up clears `isDragging`. -/
def step (e : Event) (s : CropState) : CropState :=
  match e with
  | Event.mouseDown x y => startDrag x y { s with isDragging := true }
  | Event.mouseMove x y => if s.isDragging then updateDrag x y s else s
  | Event.mouseUp => onMouseUp s

/-- Run a sequence of pointer events from a state. -/
def run (s : CropState) : List Event → CropState
  | [] => s
  | e :: es => run (step e s) es

/-- The predicate `noNewRun s evs` holds when no event of the trace `evs` started from
`s` leaves the machine in `new` drag mode (in particular no pointer-down
of the trace resolves to a new-selection gesture). -/
def noNewRun (s : CropState) : List Event → Bool
  | [] => true
  | e :: es => decide ((step e s).dragMode ≠ DragMode.new) && noNewRun (step e s) es

/-- The rectangle invariant claimed by the specification: both corners
ordered and inside Bounds. -/
abbrev InvClaim (s : CropState) : Prop :=
  0 ≤ s.cropStartX ∧ s.cropStartX ≤ s.cropEndX ∧ s.cropEndX ≤ s.boundsW ∧
  0 ≤ s.cropStartY ∧ s.cropStartY ≤ s.cropEndY ∧ s.cropEndY ≤ s.boundsH

/-- The inductive strengthening of `InvClaim` actually preserved by the
gesture operations: the rectangle additionally has at least the minimum
size on both axes, and the machine is not in `new` drag mode. -/
def StrongInv (s : CropState) : Prop :=
  0 ≤ s.cropStartX ∧ s.cropStartX + minSize ≤ s.cropEndX ∧ s.cropEndX ≤ s.boundsW ∧
  0 ≤ s.cropStartY ∧ s.cropStartY + minSize ≤ s.cropEndY ∧ s.cropEndY ≤ s.boundsH ∧
  s.dragMode ≠ DragMode.new

/-- Clamping into `[0, W]` is idempotent. -/
lemma clamp_idem (W x : ℚ) : max 0 (min W (max 0 (min W x))) = max 0 (min W x) := by
  rcases le_total (min W x) 0 with h | h
  · rw [max_eq_left h]
    exact max_eq_left (min_le_right W 0)
  · rw [max_eq_right h, ← min_assoc, min_self]
    exact max_eq_right h

/-- C9: for every state, ending the gesture twice in a row yields the same
state as ending it once; `onMouseUp` only clears `isDragging`, so it is
idempotent, also when no gesture is active. -/
theorem C9_endGesture_idempotent (s : CropState) :
    onMouseUp (onMouseUp s) = onMouseUp s := rfl

/-- C6: loading an image with positive dimensions initializes the crop
rectangle to the centered 50% region, `start = 0.25 × (w, h)` and
`end = 0.75 × (w, h)`; in particular for bounds 400 × 200 the current
rectangle is `{x0 := 100, y0 := 50, x1 := 300, y1 := 150}`. -/
theorem C6_initialize_centered (w h : ℚ) (hw : 0 < w) (hh : 0 < h) :
    currentRectangle (initState w h) =
      { x0 := w * 0.25, y0 := h * 0.25, x1 := w * 0.75, y1 := h * 0.75 } ∧
    currentRectangle (initState 400 200) = ⟨100, 50, 300, 150⟩ :=
  ⟨rfl, by with_unfolding_all rfl⟩

/-- Witness for C6 at the concrete bounds 400 × 200. -/
theorem C6_initialize_centered_witness :
    currentRectangle (initState 400 200) = ⟨100, 50, 300, 150⟩ :=
  (C6_initialize_centered 400 200 (by decide) (by decide)).2

/-- C7: in topLeft mode, `updateDrag` sets
`cropStartX = min (cropEndX − minSize) x` and
`cropStartY = min (cropEndY − minSize) y` on the clamped point, leaving
the end corner unchanged; in the concrete scenario a pointer-down at
`(100, 50)` on the initial 400 × 200 state resolves to topLeft, and the
following update at `(350, 150)` clamps the start corner to
`(280, 130) = (300 − 20, 150 − 20)`. -/
theorem C7_topLeft_clamp :
    (∀ (s : CropState) (x y : ℚ), s.dragMode = DragMode.topLeft →
      (updateDrag x y s).cropStartX =
        min (s.cropEndX - minSize) (max 0 (min s.boundsW x)) ∧
      (updateDrag x y s).cropStartY =
        min (s.cropEndY - minSize) (max 0 (min s.boundsH y)) ∧
      (updateDrag x y s).cropEndX = s.cropEndX ∧
      (updateDrag x y s).cropEndY = s.cropEndY) ∧
    (step (Event.mouseDown 100 50) (initState 400 200)).dragMode = DragMode.topLeft ∧
    currentRectangle (step (Event.mouseMove 350 150)
        (step (Event.mouseDown 100 50) (initState 400 200))) = ⟨280, 130, 300, 150⟩ := by
  refine ⟨?_, by with_unfolding_all rfl, by with_unfolding_all rfl⟩
  intro s x y hm
  simp [updateDrag, hm]

/-- Witness for C7: the general topLeft formulas applied to the state of
the concrete scenario. -/
theorem C7_topLeft_clamp_witness :
    (updateDrag 350 150 (step (Event.mouseDown 100 50) (initState 400 200))).cropStartX =
      min ((step (Event.mouseDown 100 50) (initState 400 200)).cropEndX - minSize)
        (max 0 (min (step (Event.mouseDown 100 50) (initState 400 200)).boundsW 350)) ∧
    (updateDrag 350 150 (step (Event.mouseDown 100 50) (initState 400 200))).cropStartY =
      min ((step (Event.mouseDown 100 50) (initState 400 200)).cropEndY - minSize)
        (max 0 (min (step (Event.mouseDown 100 50) (initState 400 200)).boundsH 150)) ∧
    (updateDrag 350 150 (step (Event.mouseDown 100 50) (initState 400 200))).cropEndX =
      (step (Event.mouseDown 100 50) (initState 400 200)).cropEndX ∧
    (updateDrag 350 150 (step (Event.mouseDown 100 50) (initState 400 200))).cropEndY =
      (step (Event.mouseDown 100 50) (initState 400 200)).cropEndY :=
  C7_topLeft_clamp.1 _ 350 150 (by with_unfolding_all rfl)

/-- C5: with an active gesture, `updateDrag` treats any pointer position
exactly as its componentwise clamp into Bounds: the result of the update
at `(x, y)` equals the result at
`(max 0 (min boundsW x), max 0 (min boundsH y))` in every mode. -/
theorem C5_update_clamps_point (s : CropState) (x y : ℚ)
    (h : s.dragMode ≠ DragMode.none) :
    updateDrag x y s =
      updateDrag (max 0 (min s.boundsW x)) (max 0 (min s.boundsH y)) s := by
  simp only [updateDrag, clamp_idem]

/-- Witness for C5: a pointer at `x = 500` with `boundsW = 400` is
treated as its clamp in an active new-selection gesture. -/
theorem C5_update_clamps_point_witness :
    updateDrag 500 100 (step (Event.mouseDown 10 10) (initState 400 200)) =
      updateDrag
        (max 0 (min (step (Event.mouseDown 10 10) (initState 400 200)).boundsW 500))
        (max 0 (min (step (Event.mouseDown 10 10) (initState 400 200)).boundsH 100))
        (step (Event.mouseDown 10 10) (initState 400 200)) :=
  C5_update_clamps_point _ 500 100 (by with_unfolding_all decide)

/-- C8: in new mode, `updateDrag` moves only the end corner, to the
clamped pointer, and leaves the start corner untouched; no minimum-size
clamp applies, and the concrete new-selection gesture at `(10, 10)`
updated at `(10, 10)` leaves a rectangle of dimensions `(0, 0)`, below
`minSize`. -/
theorem C8_new_tracks_end :
    (∀ (s : CropState) (x y : ℚ), s.dragMode = DragMode.new →
      (updateDrag x y s).cropStartX = s.cropStartX ∧
      (updateDrag x y s).cropStartY = s.cropStartY ∧
      (updateDrag x y s).cropEndX = max 0 (min s.boundsW x) ∧
      (updateDrag x y s).cropEndY = max 0 (min s.boundsH y)) ∧
    (run (initState 400 200) [Event.mouseDown 10 10, Event.mouseMove 10 10]).dragMode =
      DragMode.new ∧
    dimensions (run (initState 400 200) [Event.mouseDown 10 10, Event.mouseMove 10 10]) =
      (0, 0) ∧
    (0 : ℚ) < minSize := by
  refine ⟨?_, by with_unfolding_all rfl, by with_unfolding_all rfl, by decide⟩
  intro s x y hm
  simp [updateDrag, hm]

/-- Witness for C8: the general new-mode update equations applied to the
state of the concrete scenario, at pointer `(60, 60)`. -/
theorem C8_new_tracks_end_witness :
    (updateDrag 60 60 (step (Event.mouseDown 10 10) (initState 400 200))).cropStartX =
      (step (Event.mouseDown 10 10) (initState 400 200)).cropStartX ∧
    (updateDrag 60 60 (step (Event.mouseDown 10 10) (initState 400 200))).cropStartY =
      (step (Event.mouseDown 10 10) (initState 400 200)).cropStartY ∧
    (updateDrag 60 60 (step (Event.mouseDown 10 10) (initState 400 200))).cropEndX =
      max 0 (min (step (Event.mouseDown 10 10) (initState 400 200)).boundsW 60) ∧
    (updateDrag 60 60 (step (Event.mouseDown 10 10) (initState 400 200))).cropEndY =
      max 0 (min (step (Event.mouseDown 10 10) (initState 400 200)).boundsH 60) :=
  C8_new_tracks_end.1 _ 60 60 (by with_unfolding_all rfl)

/-- C10: a pointer-down that resolves to a handle or to move leaves the
rectangle fields unchanged; only a pointer-down resolving to new mutates
the rectangle, collapsing it onto the pointer position. -/
theorem C10_beginGesture_frame (s : CropState) (x y : ℚ) :
    ((startDrag x y s).dragMode ≠ DragMode.new →
      currentRectangle (startDrag x y s) = currentRectangle s) ∧
    ((startDrag x y s).dragMode = DragMode.new →
      currentRectangle (startDrag x y s) = ⟨x, y, x, y⟩) := by
  unfold startDrag
  split_ifs <;> simp [currentRectangle]

/-- Witness for C10: the pointer-down at `(100, 50)` on the initial
400 × 200 state resolves to topLeft and leaves the rectangle unchanged. -/
theorem C10_beginGesture_frame_witness :
    currentRectangle (startDrag 100 50 (initState 400 200)) =
      currentRectangle (initState 400 200) :=
  (C10_beginGesture_frame (initState 400 200) 100 50).1 (by with_unfolding_all decide)

/-- C4: `startDrag` resolves the drag mode by first-match-wins
hit-testing in the order topLeft, topRight, bottomLeft, bottomRight
handles, then the strict interior (move, recording the drag offset
relative to the start corner), and otherwise starts a new selection,
collapsing the rectangle onto the raw pointer position; concretely, from
the initial 400 × 200 state (rectangle `{100, 50, 300, 150}`) a
pointer-down at `(10, 10)` yields mode new and rectangle
`{10, 10, 10, 10}`, and the subsequent update at `(60, 60)` yields
`{10, 10, 60, 60}`. -/
theorem C4_hit_test_precedence :
    (∀ (s : CropState) (x y : ℚ),
      (nearTopLeft s x y → (startDrag x y s).dragMode = DragMode.topLeft) ∧
      (¬ nearTopLeft s x y → nearTopRight s x y →
        (startDrag x y s).dragMode = DragMode.topRight) ∧
      (¬ nearTopLeft s x y → ¬ nearTopRight s x y → nearBottomLeft s x y →
        (startDrag x y s).dragMode = DragMode.bottomLeft) ∧
      (¬ nearTopLeft s x y → ¬ nearTopRight s x y → ¬ nearBottomLeft s x y →
        nearBottomRight s x y → (startDrag x y s).dragMode = DragMode.bottomRight) ∧
      (¬ nearTopLeft s x y → ¬ nearTopRight s x y → ¬ nearBottomLeft s x y →
        ¬ nearBottomRight s x y → insideRect s x y →
        (startDrag x y s).dragMode = DragMode.move ∧
        (startDrag x y s).dragOffsetX = x - s.cropStartX ∧
        (startDrag x y s).dragOffsetY = y - s.cropStartY ∧
        currentRectangle (startDrag x y s) = currentRectangle s) ∧
      (¬ nearTopLeft s x y → ¬ nearTopRight s x y → ¬ nearBottomLeft s x y →
        ¬ nearBottomRight s x y → ¬ insideRect s x y →
        (startDrag x y s).dragMode = DragMode.new ∧
        currentRectangle (startDrag x y s) = ⟨x, y, x, y⟩)) ∧
    (step (Event.mouseDown 10 10) (initState 400 200)).dragMode = DragMode.new ∧
    currentRectangle (step (Event.mouseDown 10 10) (initState 400 200)) =
      ⟨10, 10, 10, 10⟩ ∧
    currentRectangle (run (initState 400 200)
        [Event.mouseDown 10 10, Event.mouseMove 60 60]) = ⟨10, 10, 60, 60⟩ := by
  refine ⟨?_, by with_unfolding_all rfl, by with_unfolding_all rfl,
    by with_unfolding_all rfl⟩
  intro s x y
  refine ⟨?_, ?_, ?_, ?_, ?_, ?_⟩ <;> intros <;> unfold startDrag <;>
    split_ifs <;> simp_all [currentRectangle]

/-- Witness for C4: the new-selection branch at the concrete scenario
input, the pointer-down at `(10, 10)` on the initial 400 × 200 state. -/
theorem C4_hit_test_precedence_witness :
    (startDrag 10 10 (initState 400 200)).dragMode = DragMode.new ∧
    currentRectangle (startDrag 10 10 (initState 400 200)) = ⟨10, 10, 10, 10⟩ :=
  (C4_hit_test_precedence.1 (initState 400 200) 10 10).2.2.2.2.2
    (by with_unfolding_all decide) (by with_unfolding_all decide)
    (by with_unfolding_all decide) (by with_unfolding_all decide)
    (by with_unfolding_all decide)

/-- A min-clamped left/top edge keeps at least `minSize` distance to the
opposite edge. -/
lemma min_size_shrink_left (a c : ℚ) : minSize ≤ a - min (a - minSize) c := by
  have := min_le_left (a - minSize) c
  linarith

/-- A max-clamped right/bottom edge keeps at least `minSize` distance to
the opposite edge. -/
lemma min_size_grow_right (a c : ℚ) : minSize ≤ max (a + minSize) c - a := by
  have := le_max_left (a + minSize) c
  linarith

/-- C2: after any `updateDrag` in one of the four corner-resize modes,
the rectangle has width and height at least `minSize`; the min/max clamp
formulas never shrink it below the minimum size, whatever the prior
state and pointer position. -/
theorem C2_resize_min_size (s : CropState) (x y : ℚ)
    (h : s.dragMode = DragMode.topLeft ∨ s.dragMode = DragMode.topRight ∨
         s.dragMode = DragMode.bottomLeft ∨ s.dragMode = DragMode.bottomRight) :
    minSize ≤ (updateDrag x y s).cropEndX - (updateDrag x y s).cropStartX ∧
    minSize ≤ (updateDrag x y s).cropEndY - (updateDrag x y s).cropStartY := by
  obtain ⟨bW, bH, sx, sy, ex, ey, dm, ox, oy, dr⟩ := s
  dsimp only at h
  rcases h with h | h | h | h <;> subst h <;> dsimp only [updateDrag]
  · exact ⟨min_size_shrink_left _ _, min_size_shrink_left _ _⟩
  · exact ⟨min_size_grow_right _ _, min_size_shrink_left _ _⟩
  · exact ⟨min_size_shrink_left _ _, min_size_grow_right _ _⟩
  · exact ⟨min_size_grow_right _ _, min_size_grow_right _ _⟩

/-- Witness for C2: the topLeft resize of the concrete scenario, updated
at `(350, 150)`. -/
theorem C2_resize_min_size_witness :
    minSize ≤ (updateDrag 350 150 (step (Event.mouseDown 100 50)
        (initState 400 200))).cropEndX -
      (updateDrag 350 150 (step (Event.mouseDown 100 50)
        (initState 400 200))).cropStartX ∧
    minSize ≤ (updateDrag 350 150 (step (Event.mouseDown 100 50)
        (initState 400 200))).cropEndY -
      (updateDrag 350 150 (step (Event.mouseDown 100 50)
        (initState 400 200))).cropStartY :=
  C2_resize_min_size _ 350 150 (Or.inl (by with_unfolding_all rfl))

/-- One move-mode `updateDrag` preserves the selection dimensions and
stays in move mode. -/
lemma updateDrag_move_dims (s : CropState) (x y : ℚ) (h : s.dragMode = DragMode.move) :
    dimensions (updateDrag x y s) = dimensions s ∧
    (updateDrag x y s).dragMode = DragMode.move := by
  obtain ⟨bW, bH, sx, sy, ex, ey, dm, ox, oy, dr⟩ := s
  dsimp only at h
  subst h
  dsimp only [updateDrag, dimensions]
  refine ⟨?_, rfl⟩
  simp only [Prod.mk.injEq]
  constructor <;> ring

/-- C3: any sequence of move-mode `updateDrag` calls, with arbitrary
pointer positions, leaves the selection dimensions
`(cropEndX − cropStartX, cropEndY − cropStartY)` unchanged: moving only
translates the rectangle. -/
theorem C3_move_preserves_size (s : CropState) (ps : List (ℚ × ℚ))
    (h : s.dragMode = DragMode.move) :
    dimensions (ps.foldl (fun t p => updateDrag p.1 p.2 t) s) = dimensions s := by
  induction ps generalizing s with
  | nil => rfl
  | cons p ps ih =>
      have hd := updateDrag_move_dims s p.1 p.2 h
      rw [List.foldl_cons, ih _ hd.2, hd.1]

/-- Witness for C3: the move gesture of the concrete scenario, a
pointer-down at the interior point `(200, 100)` followed by one move
update at `(250, 100)`. -/
theorem C3_move_preserves_size_witness :
    dimensions ([((250 : ℚ), (100 : ℚ))].foldl (fun t p => updateDrag p.1 p.2 t)
        (step (Event.mouseDown 200 100) (initState 400 200))) =
      dimensions (step (Event.mouseDown 200 100) (initState 400 200)) :=
  C3_move_preserves_size _ _ (by with_unfolding_all rfl)

/-- A pointer-down that does not resolve to a new selection preserves the
strengthened invariant. -/
lemma startDrag_strong (x y : ℚ) (s : CropState) (h : StrongInv s)
    (hn : (startDrag x y s).dragMode ≠ DragMode.new) :
    StrongInv (startDrag x y s) := by
  obtain ⟨h1, h2, h3, h4, h5, h6, h7⟩ := h
  unfold startDrag at hn ⊢
  split_ifs at hn ⊢
  · exact ⟨h1, h2, h3, h4, h5, h6, show DragMode.topLeft ≠ DragMode.new by decide⟩
  · exact ⟨h1, h2, h3, h4, h5, h6, show DragMode.topRight ≠ DragMode.new by decide⟩
  · exact ⟨h1, h2, h3, h4, h5, h6, show DragMode.bottomLeft ≠ DragMode.new by decide⟩
  · exact ⟨h1, h2, h3, h4, h5, h6, show DragMode.bottomRight ≠ DragMode.new by decide⟩
  · exact ⟨h1, h2, h3, h4, h5, h6, show DragMode.move ≠ DragMode.new by decide⟩
  · exact absurd rfl hn

/-- Every `updateDrag` preserves the strengthened invariant: the new
drag mode is excluded by the invariant itself, the resize modes keep the
minimum size by their min/max clamps, and the move mode translates the
rectangle inside Bounds. -/
lemma updateDrag_strong (x y : ℚ) (s : CropState) (h : StrongInv s) :
    StrongInv (updateDrag x y s) := by
  obtain ⟨bW, bH, sx, sy, ex, ey, dm, ox, oy, dr⟩ := s
  obtain ⟨h1, h2, h3, h4, h5, h6, h7⟩ := h
  dsimp only at h1 h2 h3 h4 h5 h6 h7
  have hmin : (0 : ℚ) < minSize := by norm_num [minSize]
  have hW : (0 : ℚ) ≤ bW := by linarith
  have hH : (0 : ℚ) ≤ bH := by linarith
  have hx0 : 0 ≤ max 0 (min bW x) := le_max_left _ _
  have hy0 : 0 ≤ max 0 (min bH y) := le_max_left _ _
  have hxW : max 0 (min bW x) ≤ bW := max_le hW (min_le_left _ _)
  have hyH : max 0 (min bH y) ≤ bH := max_le hH (min_le_left _ _)
  cases dm
  case none => exact ⟨h1, h2, h3, h4, h5, h6, h7⟩
  case new => exact absurd rfl h7
  case topLeft =>
    dsimp only [updateDrag, StrongInv]
    have e1 := min_le_left (ex - minSize) (max 0 (min bW x))
    have e2 := min_le_left (ey - minSize) (max 0 (min bH y))
    exact ⟨le_min (by linarith) hx0, by linarith, h3,
      le_min (by linarith) hy0, by linarith, h6,
      show DragMode.topLeft ≠ DragMode.new by decide⟩
  case topRight =>
    dsimp only [updateDrag, StrongInv]
    have e2 := min_le_left (ey - minSize) (max 0 (min bH y))
    exact ⟨h1, le_max_left _ _, max_le (by linarith) hxW,
      le_min (by linarith) hy0, by linarith, h6,
      show DragMode.topRight ≠ DragMode.new by decide⟩
  case bottomLeft =>
    dsimp only [updateDrag, StrongInv]
    have e1 := min_le_left (ex - minSize) (max 0 (min bW x))
    exact ⟨le_min (by linarith) hx0, by linarith, h3,
      h4, le_max_left _ _, max_le (by linarith) hyH,
      show DragMode.bottomLeft ≠ DragMode.new by decide⟩
  case bottomRight =>
    dsimp only [updateDrag, StrongInv]
    exact ⟨h1, le_max_left _ _, max_le (by linarith) hxW,
      h4, le_max_left _ _, max_le (by linarith) hyH,
      show DragMode.bottomRight ≠ DragMode.new by decide⟩
  case move =>
    dsimp only [updateDrag, StrongInv]
    refine ⟨?_, ?_, ?_, ?_, ?_, ?_, show DragMode.move ≠ DragMode.new by decide⟩ <;>
      split_ifs <;> linarith

/-- One event preserves the strengthened invariant, provided it does not
leave the machine in new drag mode. -/
lemma step_strong (e : Event) (s : CropState) (h : StrongInv s)
    (hn : (step e s).dragMode ≠ DragMode.new) : StrongInv (step e s) := by
  cases e with
  | mouseDown x y => exact startDrag_strong x y _ h hn
  | mouseMove x y =>
      cases hb : s.isDragging
      · simp only [step, hb, Bool.false_eq_true, if_false]
        exact h
      · simp only [step, hb, if_true]
        exact updateDrag_strong x y s h
  | mouseUp => exact h

/-- A trace of events none of which leaves the machine in new drag mode
preserves the strengthened invariant. -/
lemma run_strong (evs : List Event) :
    ∀ s : CropState, StrongInv s → noNewRun s evs = true → StrongInv (run s evs) := by
  induction evs with
  | nil => exact fun s h _ => h
  | cons e es ih =>
      intro s h hn
      rw [noNewRun, Bool.and_eq_true, decide_eq_true_eq] at hn
      exact ih (step e s) (step_strong e s h hn.1) hn.2

/-- C1 (amended): the claimed invariant
`0 ≤ x0 ≤ x1 ≤ boundsW` and `0 ≤ y0 ≤ y1 ≤ boundsH`
holds for every state reached from an initialization with bounds at
least `2 × minSize` on both axes by a gesture trace in which no
pointer-down resolves to a new-selection gesture.  (As stated over all
reachable states the claim is false: see the counterexample, a new
gesture stores the raw, unclamped pointer as the collapsed rectangle.) -/
theorem C1_no_new_invariant (w h : ℚ) (hw : 2 * minSize ≤ w) (hh : 2 * minSize ≤ h)
    (evs : List Event) (hn : noNewRun (initState w h) evs = true) :
    InvClaim (run (initState w h) evs) := by
  have hmin : (0 : ℚ) < minSize := by norm_num [minSize]
  have hs : StrongInv (initState w h) := by
    unfold StrongInv initState handleImageSelect
    dsimp only
    refine ⟨by linarith, ?_, by linarith, by linarith, ?_, by linarith,
      show DragMode.none ≠ DragMode.new by decide⟩
    · have : w * 0.75 - w * 0.25 = w * 0.5 := by ring
      have h2 : 2 * minSize * 0.5 ≤ w * 0.5 := by linarith
      have h3 : (2 : ℚ) * minSize * 0.5 = minSize := by ring
      linarith
    · have h2 : 2 * minSize * 0.5 ≤ h * 0.5 := by linarith
      have h3 : (2 : ℚ) * minSize * 0.5 = minSize := by ring
      linarith
  obtain ⟨a1, a2, a3, a4, a5, a6, a7⟩ := run_strong evs (initState w h) hs hn
  exact ⟨a1, by linarith, a3, a4, by linarith, a6⟩

/-- Witness for the amended C1: a full move gesture on the 400 × 200
initial state (pointer-down inside the rectangle, one move update, and
gesture end) keeps the rectangle normalized and inside Bounds. -/
theorem C1_no_new_invariant_witness :
    InvClaim (run (initState 400 200)
      [Event.mouseDown 200 100, Event.mouseMove 250 100, Event.mouseUp]) :=
  C1_no_new_invariant 400 200 (by with_unfolding_all decide)
    (by with_unfolding_all decide) _ (by with_unfolding_all rfl)

/-- Counterexample to C1 as stated: from a valid 400 × 200
initialization, one pointer-down at `(-5, -5)` (no handle, not interior)
is a reachable state whose rectangle corner `x0 = -5` lies outside
Bounds, violating `0 ≤ x0`; `startDrag` stores the raw, unclamped point
when it starts a new selection. -/
theorem C1_counterexample :
    ¬ InvClaim (run (initState 400 200) [Event.mouseDown (-5) (-5)]) := by
  have he : (run (initState 400 200) [Event.mouseDown (-5) (-5)]).cropStartX = -5 := by
    with_unfolding_all rfl
  intro hinv
  obtain ⟨h1, -⟩ := hinv
  rw [he] at h1
  norm_num at h1

end Fileverse
